import Mathlib

/-!
Shallow embedding of the protoc-gen-twirp-es code generator (Go), covering
the four source variants: `src/main.go` (class-based TypeScript output) and
the three unnamed variants `part_000`, `part_001`, `part_002` (object-literal
reconstruction output).  Pure functions mirror the Go functions; Go panics
(nil-pointer field access, out-of-range indexing) are modelled as `Option`
`none`; the unbounded recursion of `genField` over the global message map is
modelled with an explicit recursion-depth budget (`fuel`), consumed once per
recursive call, so that every definition is structurally recursive and
kernel-evaluable.  Emitted JavaScript/TypeScript text is reproduced exactly;
literal braces are written with `\x7b` / `\x7d` escapes.
-/

/-- FieldDescriptorProto_Type: the scalar-type tag enumeration of the
protobuf descriptor (the cases the Go code distinguishes). -/
inductive FieldType where
  | double | float | int64 | uint64 | int32 | fixed64 | fixed32
  | bool | string | group | message | bytes | uint32 | enum
  | sfixed32 | sfixed64 | sint32 | sint64
deriving DecidableEq, Repr

/-- FieldDescriptorProto_Label: the repetition label. -/
inductive Label where
  | optional | required | repeated
deriving DecidableEq, Repr

/-- FieldDescriptorProto: name, type tag, type-reference (GetTypeName, ""
when unset) and repetition label, as the Go code reads them. -/
structure FieldDescriptorProto where
  name : String
  type : FieldType
  typeName : String
  label : Label
deriving DecidableEq, Repr

/-- DescriptorProto: a message with its fields and nested message types
(an inductive because nested types are messages again). -/
inductive DescriptorProto where
  | mk (name : String) (field : List FieldDescriptorProto)
      (nestedType : List DescriptorProto)
deriving Repr

/-- GetName of a message. -/
def DescriptorProto.name : DescriptorProto → String
  | .mk n _ _ => n

/-- GetField of a message. -/
def DescriptorProto.field : DescriptorProto → List FieldDescriptorProto
  | .mk _ f _ => f

/-- GetNestedType of a message. -/
def DescriptorProto.nestedType : DescriptorProto → List DescriptorProto
  | .mk _ _ t => t

/-- MethodDescriptorProto: a service method with its input and output
type-references. -/
structure MethodDescriptorProto where
  name : String
  inputType : String
  outputType : String
deriving Repr

/-- ServiceDescriptorProto: a service and its methods. -/
structure ServiceDescriptorProto where
  name : String
  method : List MethodDescriptorProto
deriving Repr

/-- FileDescriptorProto: package name, messages and services of one file. -/
structure FileDescriptorProto where
  pkg : String
  messageType : List DescriptorProto
  service : List ServiceDescriptorProto
deriving Repr

/-- CodeGeneratorRequest: the schema input of one generation run. -/
structure CodeGeneratorRequest where
  fileToGenerate : List String
  protoFile : List FileDescriptorProto
deriving Repr

/-- CodeGeneratorResponse_File: the one artifact a run emits. -/
structure Artifact where
  name : String
  content : String
deriving DecidableEq, Repr

/-- isRepeated (all variants): label == LABEL_REPEATED. -/
def isRepeated : Label → Bool
  | .repeated => true
  | _ => false

/-- isMessage (all variants): type tag == TYPE_MESSAGE. -/
def isMessage : FieldType → Bool
  | .message => true
  | _ => false

/-- isMap (main.go, part_000, part_002): strings.HasSuffix(typeName, "Entry"),
written on the underlying character lists so the kernel evaluates it. -/
def isMap (typeName : String) : Bool :=
  List.isSuffixOf "Entry".data typeName.data

/-- isTimestamp (main.go, part_000): the one reserved well-known name. -/
def isTimestamp (typeName : String) : Bool :=
  typeName == ".google.protobuf.Timestamp"

/-- The numeric type tags, exactly the twelve cases the Go switch sends to
"0" / "number". -/
def isNumericType : FieldType → Bool
  | .double | .float | .int64 | .uint64 | .int32 | .fixed64 | .fixed32
  | .uint32 | .sfixed32 | .sfixed64 | .sint32 | .sint64 => true
  | _ => false

/-- zv (identical in main.go, part_000, part_001, part_002): the JavaScript
zero-value literal for a primitive type tag. -/
def zv (t : FieldType) : String :=
  if isNumericType t then "0"
  else match t with
    | .bool => "false"
    | .string => "\"\""
    | _ => "\x7b\x7d"

/-- strings.Split(s, ".") followed by taking the last part (the unqualified
type name), as main.go's initiate and part_002's getTypeName compute it;
implemented by scanning the characters and restarting at each dot. -/
def lastSegmentAux : List Char → List Char → List Char
  | acc, [] => acc.reverse
  | acc, c :: cs => if c == '.' then lastSegmentAux [] cs else lastSegmentAux (c :: acc) cs

/-- The unqualified last dot-separated segment of a qualified name. -/
def lastSegment (s : String) : String :=
  String.mk (lastSegmentAux [] s.data)

/-- The global `messages` map, modelled as an association list; an insert
prepends, so the first match is the most recent write (Go map overwrite
semantics). -/
def lookupMsg : List (String × DescriptorProto) → String → Option DescriptorProto
  | [], _ => none
  | (k, v) :: rest, key => if k == key then some v else lookupMsg rest key

/-- GetField on a possibly-nil *DescriptorProto (Go generated getters are
nil-tolerant and return the nil slice). -/
def GetFieldOpt : Option DescriptorProto → List FieldDescriptorProto
  | none => []
  | some m => m.field

/-- GetName on a possibly-nil *DescriptorProto (nil-tolerant, returns ""). -/
def GetNameOpt : Option DescriptorProto → String
  | none => ""
  | some m => m.name

/-- getTypeScriptType (identical in main.go and part_000): the TypeScript
type annotation of a field.  `none` models a Go panic (nested-type index
out of range, entry with fewer than two fields) or an exhausted recursion
budget; the Go recursion descends the nested-type chain, so any `fuel`
larger than that depth is enough. -/
def getTypeScriptType : Nat → DescriptorProto → FieldDescriptorProto → Option String
  | fuel, message, field =>
    let base : Option String :=
      if isNumericType field.type then some "number"
      else match field.type with
        | .bool => some "boolean"
        | .string => some "string"
        | _ =>
          if isTimestamp field.typeName then some "string"
          else if isMap field.typeName then
            match message.nestedType with
            | [] => none
            | msg :: _ =>
              match msg.field[0]?, msg.field[1]? with
              | some key, some value =>
                match fuel with
                | 0 => none
                | fu + 1 =>
                  match getTypeScriptType fu msg key, getTypeScriptType fu msg value with
                  | some k, some v => some ("\x7b [name: " ++ k ++ "]: " ++ v ++ " \x7d")
                  | _, _ => none
              | _, _ => none
          else some (lastSegment field.typeName)
    base.map fun r =>
      if isRepeated field.label && !isMap field.typeName then r ++ "[]" else r

/-- initiate (main.go): one constructor assignment line for a field.  The
branch order of the Go code is kept exactly: map, then repeated, then
timestamp, then message, then primitive.  `none` models the Go panics of the
map branch (GetNestedType()[0] or fields[1] out of range, or a failing
getTypeScriptType). -/
def initiate (fuel : Nat) (message : DescriptorProto) (f : FieldDescriptorProto) :
    Option String :=
  if isMap f.typeName then
    match message.nestedType with
    | [] => none
    | msg :: _ =>
      match msg.field[1]? with
      | none => none
      | some value =>
        (getTypeScriptType fuel msg value).map fun t =>
          "this." ++ f.name ++ " = Object.entries(o." ++ f.name ++
            ").reduce((a, [k, v]) => \x7ba[k] = new " ++ t ++
            "(v || \x7b\x7d); return a\x7d, \x7b\x7d)"
  else if isRepeated f.label then
    some ("this." ++ f.name ++ " = o." ++ f.name ++ " || []")
  else if isTimestamp f.typeName then
    some ("this." ++ f.name ++ " = o." ++ f.name ++ " || \"\"")
  else if isMessage f.type then
    some ("this." ++ f.name ++ " = new " ++ lastSegment f.typeName ++
      "(o." ++ f.name ++ " || \x7b\x7d)")
  else
    some ("this." ++ f.name ++ " = o." ++ f.name ++ " || " ++ zv f.type)

example : lastSegment ".trpc.Match" = "Match" := by decide
example : isMap ".trpc.Resp.MetaEntry" = true := by decide
example : isMap ".google.protobuf.Timestamp" = false := by decide
example : zv .double = "0" := by decide

/-- genField (part_000): the object-literal reconstruction emitter.  Branch
order: timestamp, map, repeated, message, scalar.  The repeated branch
guards the source (`src ? src.map(...) : []`); the map branch iterates
`Object.entries` of the source unguarded.  `fuel` is consumed once per
recursive call (also for the tail of the field list); `none` models a Go
panic (`nested.GetField()[1]` out of range) or an exhausted budget. -/
def genField_p0 (msgs : List (String × DescriptorProto)) :
    Nat → List FieldDescriptorProto → List String → Option String
  | _, [], _ => some ""
  | 0, _ :: _, _ => none
  | fuel + 1, f :: rest, id =>
    let colon := if rest.isEmpty then "" else ","
    let m := lookupMsg msgs f.typeName
    let piece : Option String :=
      if isTimestamp f.typeName then
        some (f.name ++ (": " ++ (String.intercalate "." (id ++ [f.name]) ++
          (" || \"\"" ++ (colon ++ "\n")))))
      else if isMap f.typeName then
        match (GetFieldOpt m)[1]? with
        | none => none
        | some nestedValue =>
          let nestedValueType := lookupMsg msgs nestedValue.typeName
          (genField_p0 msgs fuel (GetFieldOpt nestedValueType) ["v"]).map fun inner =>
            f.name ++ (": Object.entries(" ++ (String.intercalate "." (id ++ [f.name]) ++
              (").reduce((a, [k, v]) => \x7b\n" ++ ("a[k] = \x7b\n" ++ (inner ++
                ("\x7d\n" ++ ("return a\n" ++ ("\x7d, \x7b\x7d)" ++ (colon ++ "\n")))))))))
      else if isRepeated f.label then
        let joined := String.intercalate "." (id ++ [f.name])
        let fields := GetFieldOpt m
        if fields.isEmpty then
          some (f.name ++ (": " ++ (joined ++ (" ? " ++ (joined ++ (".map(v => \x7b\n" ++
            ("return v || " ++ (zv f.type ++ ("\n" ++ ("\x7d) : []" ++ (colon ++ "\n")))))))))))
        else
          (genField_p0 msgs fuel fields ["v"]).map fun inner =>
            f.name ++ (": " ++ (joined ++ (" ? " ++ (joined ++ (".map(v => \x7b\n" ++
              ("return \x7b\n" ++ (inner ++ ("\x7d\n" ++ ("\x7d) : []" ++ (colon ++ "\n"))))))))))
      else if isMessage f.type then
        (genField_p0 msgs fuel (GetFieldOpt m) (id ++ [f.name])).map fun inner =>
          f.name ++ (": \x7b\n" ++ (inner ++ ("\x7d" ++ (colon ++ "\n"))))
      else
        some (f.name ++ (": " ++ (String.intercalate "." (id ++ [f.name]) ++
          (" || " ++ (zv f.type ++ (colon ++ "\n"))))))
    match piece, genField_p0 msgs fuel rest id with
    | some p, some r => some (p ++ r)
    | _, _ => none

/-- genField (part_001): no timestamp and no map branch, and the repeated
branch maps the source without any guard. -/
def genField_p1 (msgs : List (String × DescriptorProto)) :
    Nat → List FieldDescriptorProto → List String → Option String
  | _, [], _ => some ""
  | 0, _ :: _, _ => none
  | fuel + 1, f :: rest, id =>
    let colon := if rest.isEmpty then "" else ","
    let m := lookupMsg msgs f.typeName
    let piece : Option String :=
      if isRepeated f.label then
        let joined := String.intercalate "." (id ++ [f.name])
        let fields := GetFieldOpt m
        if fields.isEmpty then
          some (f.name ++ (": " ++ (joined ++ (".map(v => \x7b\n" ++
            ("return v || " ++ (zv f.type ++ ("\n" ++ ("\x7d)" ++ (colon ++ "\n")))))))))
        else
          (genField_p1 msgs fuel fields ["v"]).map fun inner =>
            f.name ++ (": " ++ (joined ++ (".map(v => \x7b\n" ++
              ("return \x7b\n" ++ (inner ++ ("\x7d\n" ++ ("\x7d)" ++ (colon ++ "\n"))))))))
      else if isMessage f.type then
        (genField_p1 msgs fuel (GetFieldOpt m) (id ++ [f.name])).map fun inner =>
          f.name ++ (": \x7b\n" ++ (inner ++ ("\x7d" ++ (colon ++ "\n"))))
      else
        some (f.name ++ (": " ++ (String.intercalate "." (id ++ [f.name]) ++
          (" || " ++ (zv f.type ++ (colon ++ "\n"))))))
    match piece, genField_p1 msgs fuel rest id with
    | some p, some r => some (p ++ r)
    | _, _ => none

/-- genField (part_002): map branch first (same unguarded Object.entries
iteration as part_000), then an unguarded repeated branch (like part_001),
then message, then scalar.  No timestamp branch. -/
def genField_p2 (msgs : List (String × DescriptorProto)) :
    Nat → List FieldDescriptorProto → List String → Option String
  | _, [], _ => some ""
  | 0, _ :: _, _ => none
  | fuel + 1, f :: rest, id =>
    let colon := if rest.isEmpty then "" else ","
    let m := lookupMsg msgs f.typeName
    let piece : Option String :=
      if isMap f.typeName then
        match (GetFieldOpt m)[1]? with
        | none => none
        | some nestedValue =>
          let nestedValueType := lookupMsg msgs nestedValue.typeName
          (genField_p2 msgs fuel (GetFieldOpt nestedValueType) ["v"]).map fun inner =>
            f.name ++ (": Object.entries(" ++ (String.intercalate "." (id ++ [f.name]) ++
              (").reduce((a, [k, v]) => \x7b\n" ++ ("a[k] = \x7b\n" ++ (inner ++
                ("\x7d\n" ++ ("return a\n" ++ ("\x7d, \x7b\x7d)" ++ (colon ++ "\n")))))))))
      else if isRepeated f.label then
        let joined := String.intercalate "." (id ++ [f.name])
        let fields := GetFieldOpt m
        if fields.isEmpty then
          some (f.name ++ (": " ++ (joined ++ (".map(v => \x7b\n" ++
            ("return v || " ++ (zv f.type ++ ("\n" ++ ("\x7d)" ++ (colon ++ "\n")))))))))
        else
          (genField_p2 msgs fuel fields ["v"]).map fun inner =>
            f.name ++ (": " ++ (joined ++ (".map(v => \x7b\n" ++
              ("return \x7b\n" ++ (inner ++ ("\x7d\n" ++ ("\x7d)" ++ (colon ++ "\n"))))))))
      else if isMessage f.type then
        (genField_p2 msgs fuel (GetFieldOpt m) (id ++ [f.name])).map fun inner =>
          f.name ++ (": \x7b\n" ++ (inner ++ ("\x7d" ++ (colon ++ "\n"))))
      else
        some (f.name ++ (": " ++ (String.intercalate "." (id ++ [f.name]) ++
          (" || " ++ (zv f.type ++ (colon ++ "\n"))))))
    match piece, genField_p2 msgs fuel rest id with
    | some p, some r => some (p ++ r)
    | _, _ => none

example :
    genField_p0 [] 2 [⟨"tags", .string, "", .repeated⟩] ["data"] =
      some "tags: data.tags ? data.tags.map(v => \x7b\nreturn v || \"\"\n\x7d) : []\n" := by
  decide

example :
    genField_p1 [] 2 [⟨"tags", .string, "", .repeated⟩] ["data"] =
      some "tags: data.tags.map(v => \x7b\nreturn v || \"\"\n\x7d)\n" := by
  decide

example :
    genField_p0 [] 2
      [⟨"x", .double, "", .optional⟩, ⟨"y", .double, "", .optional⟩] ["data"] =
      some "x: data.x || 0,\ny: data.y || 0\n" := by
  decide

/-- Method (main.go): the data one blueprint iteration renders. -/
structure MethodGo where
  Service : String
  Name : String
  OutputType : String
  InputType : String
deriving DecidableEq, Repr

/-- Method (part_000): adds the reconstruction Field and OutputName. -/
structure MethodP0 where
  Service : String
  Name : String
  OutputName : String
  Field : String
  OutputType : String
  InputType : String
deriving DecidableEq, Repr

/-- Method (part_001 and part_002): name, output object name, field text. -/
structure MethodJS where
  Name : String
  OutputName : String
  Field : String
deriving DecidableEq, Repr

/-- Blueprint text from `=> {` through `const res = ` (main.go and part_000
share it verbatim). -/
def bpMeta : String :=
  "> => \x7b\n\tconst meta = document.querySelector('meta[name=\"csrf-token\"]') as HTMLMetaElement\n\tconst token = meta.content\n\tconst res = "

/-- Blueprint text opening the fetch call with the transport prefix. -/
def bpFetch : String := "await fetch('/twirp/trpc."

/-- Blueprint text between the endpoint path and the Content-Type header. -/
def bpHdr : String := "', \x7b\n\t\theaders: \x7b\n\t\t\t'X-CSRF-Token': token,\n\t\t\t"

/-- The Content-Type header line of every variant's blueprint. -/
def bpCT : String := "'Content-Type': 'application/json'"

/-- Blueprint text closing the headers and giving credentials scoping. -/
def bpCred : String := "\n\t\t\x7d,\n\t\tcredentials: 'same-origin',\n\t\t"

/-- The request-method line of every variant's blueprint. -/
def bpPost : String := "method: 'POST',"

/-- The request-body line of every variant's blueprint. -/
def bpBody : String := "body: JSON.stringify(input)"

/-- Blueprint text closing the fetch argument object. -/
def bpClose : String := "\n\t\x7d)\n\t"

/-- The status check of main.go's blueprint: a non-200 status throws the
status text, and only then is the body parsed as JSON. -/
def bpCheck : String :=
  "if (res.status !== 200) \x7b\n\t\tthrow new Error(res.statusText)\n\t\x7d\n\tconst data = await res.json()"

/-- The status check of part_000's blueprint (parse is annotated with the
output type, which follows the literal). -/
def bpCheckP0 : String :=
  "if (res.status !== 200) \x7b\n\t\tthrow new Error(res.statusText)\n\t\x7d\n\tconst data = await res.json() as "

/-- One rendered binding of main.go's `blueprint` template. -/
def renderMethod_main (m : MethodGo) : String :=
  "\nexport const " ++ m.Name ++ " = async (input: " ++ m.InputType ++
    "): Promise<" ++ m.OutputType ++ bpMeta ++ bpFetch ++ m.Service ++
    "/" ++ m.Name ++ bpHdr ++ bpCT ++ bpCred ++ bpPost ++ "\n\t\t" ++
    bpBody ++ bpClose ++ bpCheck ++ "\n\treturn new " ++ m.OutputType ++
    "(data)\n\x7d\n"

/-- The full rendered blueprint of main.go (one body per method, then the
template's trailing newline). -/
def renderBlueprint_main (ms : List MethodGo) : String :=
  String.join (ms.map renderMethod_main) ++ "\n"

/-- One rendered binding of part_000's `blueprint` template. -/
def renderMethod_p0 (m : MethodP0) : String :=
  "\nconst " ++ m.Name ++ " = async (input: " ++ m.InputType ++
    "): Promise<" ++ m.OutputType ++ bpMeta ++ bpFetch ++ m.Service ++
    "/" ++ m.Name ++ bpHdr ++ bpCT ++ bpCred ++ bpPost ++ "\n\t\t" ++
    bpBody ++ bpClose ++ bpCheckP0 ++ m.OutputType ++ "\n\n\t" ++
    m.Field ++ "\n\treturn " ++ m.OutputName ++ "\n\x7d\n"

/-- The fetch opener of part_001's blueprint: no leading slash on the path. -/
def bpFetchNoSlash : String := "await fetch('twirp/trpc."

/-- One rendered binding of part_001's `blueprint` template: no CSRF token,
no credentials scoping, no status check, and the path has no leading slash;
the service segment comes from the template-level $ServiceName. -/
def renderMethod_p1 (serviceName : String) (m : MethodJS) : String :=
  "\nconst " ++ m.Name ++ " = async (input) => \x7b\n\tconst res = " ++
    bpFetchNoSlash ++ serviceName ++ "/" ++ m.Name ++
    "', \x7b\n\t\theaders: \x7b\n\t\t\t" ++ bpCT ++ "\n\t\t\x7d,\n\t\t" ++
    bpPost ++ "\n\t\t" ++ bpBody ++ bpClose ++
    "const data = await res.json()\n\t" ++ m.Field ++ "\n\treturn " ++
    m.OutputName ++ "\n\x7d\n"

/-- One rendered binding of part_002's `blueprint` template: CSRF token and
credentials are present, the status check is not; the service segment comes
from the template-level $ServiceName. -/
def renderMethod_p2 (serviceName : String) (m : MethodJS) : String :=
  "\nconst " ++ m.Name ++
    " = async (input) => \x7b\n\tconst token = document.querySelector('meta[name=\"csrf-token\"]').content\n\tconst res = " ++
    bpFetch ++ serviceName ++ "/" ++ m.Name ++ bpHdr ++ bpCT ++
    bpCred ++ bpPost ++ "\n\t\t" ++ bpBody ++ bpClose ++
    "const data = await res.json()\n\t" ++ m.Field ++ "\n\treturn " ++
    m.OutputName ++ "\n\x7d\n"

/-- export() (part_000, part_001, part_002): the final export manifest. -/
def exportLine (names : List String) : String :=
  "export \x7b" ++ String.intercalate ", " names ++ "\x7d"

/-- isBuiltIn (main.go): the skip list of well-known / wrapper type names
(part_000's list is the same without "Empty"). -/
def isBuiltIn (n : String) : Bool :=
  n == "Empty" || n == "Timestamp" || n == "DoubleValue" || n == "FloatValue" ||
    n == "Int64Value" || n == "UInt64Value" || n == "Int32Value" ||
    n == "Fixed64Value" || n == "Fixed32Value" || n == "BoolValue" ||
    n == "StringValue" || n == "GroupValue" || n == "MessageValue" ||
    n == "BytesValue" || n == "UInt32Value" || n == "EnumValue" ||
    n == "Sfixed32Value" || n == "Sfixed64Value" || n == "Sint32Value" ||
    n == "Sint64Value"

/-- The initial `classes` slice of main.go (package-level, fresh per run). -/
def classesInit : List String :=
  ["export class Empty extends Object\x7b\x7d\n", "\n",
   "export class StringValue extends String\x7b\x7d\n", "\n",
   "export class UInt64Value extends Number\x7b\x7d\n"]

/-- One rendered `class` template of main.go: the declaration lines (one per
field via getTypeScriptType) and the constructor lines (one per field via
initiate), with the template's whitespace trimming applied. -/
def renderClass_main (fuel : Nat) (m : DescriptorProto) : Option String := do
  let typeLines ← m.field.mapM fun f =>
    (getTypeScriptType fuel m f).map fun t => "\n  " ++ f.name ++ ": " ++ t
  let initLines ← m.field.mapM fun f =>
    (initiate fuel m f).map fun s => "\n    " ++ s
  pure ("\nexport class " ++ m.name ++ " \x7b" ++ String.join typeLines ++
    "\n  constructor(o) \x7b" ++ String.join initLines ++ "\n  \x7d\n\x7d\n")

/-- main.go's method construction: resolve both type-references through the
global map with nil-tolerant GetName (an unresolved reference yields ""). -/
def mkMethod_main (msgs : List (String × DescriptorProto)) (svcName : String)
    (mtd : MethodDescriptorProto) : MethodGo :=
  { Service := svcName, Name := mtd.name,
    OutputType := GetNameOpt (lookupMsg msgs mtd.outputType),
    InputType := GetNameOpt (lookupMsg msgs mtd.inputType) }

/-- The message loop of main.go: render a class for every non-built-in
message, then register the message and its nested types in the map. -/
def stepMessages_main (fuel : Nat) :
    List DescriptorProto → String → List String → List (String × DescriptorProto) →
      Option (List String × List (String × DescriptorProto))
  | [], _, classes, msgs => some (classes, msgs)
  | m :: rest, pkg, classes, msgs => do
    let classes' ←
      if isBuiltIn m.name then some classes
      else (renderClass_main fuel m).map fun c => classes ++ [c]
    let key := "." ++ pkg ++ "." ++ m.name
    let msgs' := m.nestedType.foldl
      (fun acc t => (key ++ "." ++ t.name, t) :: acc) ((key, m) :: msgs)
    stepMessages_main fuel rest pkg classes' msgs'

/-- The service loop of main.go: every method of every service, in order. -/
def collectMethods_main (msgs : List (String × DescriptorProto))
    (svcs : List ServiceDescriptorProto) : List MethodGo :=
  svcs.foldl (fun acc svc => acc ++ svc.method.map (mkMethod_main msgs svc.name)) []

/-- The file loop of main.go: messages of a file are registered before the
same file's services are processed. -/
def processFiles_main (fuel : Nat) :
    List FileDescriptorProto → List String → List (String × DescriptorProto) →
      List MethodGo → Option (List String × List MethodGo)
  | [], classes, _, methods => some (classes, methods)
  | f :: rest, classes, msgs, methods => do
    let (classes', msgs') ← stepMessages_main fuel f.messageType f.pkg classes msgs
    processFiles_main fuel rest classes' msgs'
      (methods ++ collectMethods_main msgs' f.service)

/-- main (main.go), as a pure function of the request: the artifact's name
replaces ".proto" by ".ts" in the first file to generate, its content is the
concatenated classes followed by the rendered blueprint.  `none` models a
panic (template execution failure) or an empty FileToGenerate slice. -/
def generate_main (fuel : Nat) (req : CodeGeneratorRequest) : Option Artifact := do
  let (classes, methods) ← processFiles_main fuel req.protoFile classesInit [] []
  let first ← req.fileToGenerate[0]?
  some ⟨first.replace ".proto" ".ts",
    String.join classes ++ renderBlueprint_main methods⟩

/-- Message registration of part_001 / part_002 (no built-in skip). -/
def registerMsgs :
    List DescriptorProto → String → List (String × DescriptorProto) →
      List (String × DescriptorProto)
  | [], _, msgs => msgs
  | m :: rest, pkg, msgs =>
    let key := "." ++ pkg ++ "." ++ m.name
    registerMsgs rest pkg
      (m.nestedType.foldl (fun acc t => (key ++ "." ++ t.name, t) :: acc)
        ((key, m) :: msgs))

/-- part_001's method construction: the owning service's name is not read at
all; `none` models the nil-pointer panic of `outputType.Field` when the
output type-reference does not resolve. -/
def mkMethod_p1 (fuel : Nat) (msgs : List (String × DescriptorProto))
    (mtd : MethodDescriptorProto) : Option MethodJS :=
  match lookupMsg msgs mtd.outputType with
  | none => none
  | some ot =>
    (genField_p1 msgs fuel ot.field ["data"]).map fun inner =>
      ⟨mtd.name, ot.name, "const " ++ ot.name ++ " = \x7b\n" ++ inner ++ "\x7d\n"⟩

/-- part_002's method construction (same shape, using part_002's genField). -/
def mkMethod_p2 (fuel : Nat) (msgs : List (String × DescriptorProto))
    (mtd : MethodDescriptorProto) : Option MethodJS :=
  match lookupMsg msgs mtd.outputType with
  | none => none
  | some ot =>
    (genField_p2 msgs fuel ot.field ["data"]).map fun inner =>
      ⟨mtd.name, ot.name, "const " ++ ot.name ++ " = \x7b\n" ++ inner ++ "\x7d\n"⟩

/-- The file loop of part_001. -/
def processFiles_p1 (fuel : Nat) :
    List FileDescriptorProto → List (String × DescriptorProto) → List MethodJS →
      Option (List MethodJS)
  | [], _, methods => some methods
  | f :: rest, msgs, methods => do
    let msgs' := registerMsgs f.messageType f.pkg msgs
    let ms ← ((f.service.map ServiceDescriptorProto.method).flatten).mapM
      (mkMethod_p1 fuel msgs')
    processFiles_p1 fuel rest msgs' (methods ++ ms)

/-- The file loop of part_002. -/
def processFiles_p2 (fuel : Nat) :
    List FileDescriptorProto → List (String × DescriptorProto) → List MethodJS →
      Option (List MethodJS)
  | [], _, methods => some methods
  | f :: rest, msgs, methods => do
    let msgs' := registerMsgs f.messageType f.pkg msgs
    let ms ← ((f.service.map ServiceDescriptorProto.method).flatten).mapM
      (mkMethod_p2 fuel msgs')
    processFiles_p2 fuel rest msgs' (methods ++ ms)

/-- The content part_001's main renders: blueprint over all methods with the
hardcoded template ServiceName "Haberdasher" (source line 106), then the
export manifest. -/
def content_p1 (fuel : Nat) (req : CodeGeneratorRequest) : Option String :=
  (processFiles_p1 fuel req.protoFile [] []).map fun methods =>
    "\n" ++ String.join (methods.map (renderMethod_p1 "Haberdasher")) ++ "\n" ++
      exportLine (methods.map MethodJS.Name) ++ "\n"

/-- The content part_002's main renders: blueprint over all methods with the
hardcoded template ServiceName "Haberdasher" (source line 145), then the
export manifest. -/
def content_p2 (fuel : Nat) (req : CodeGeneratorRequest) : Option String :=
  (processFiles_p2 fuel req.protoFile [] []).map fun methods =>
    "\n" ++ String.join (methods.map (renderMethod_p2 "Haberdasher")) ++ "\n" ++
      exportLine (methods.map MethodJS.Name) ++ "\n"

set_option maxRecDepth 10000

/-- Whether `pat` is a prefix of the character list. -/
def startsWithL : List Char → List Char → Bool
  | [], _ => true
  | _ :: _, [] => false
  | p :: ps, c :: cs => p == c && startsWithL ps cs

/-- Whether `pat` occurs as a contiguous run inside the character list. -/
def containsL (pat : List Char) : List Char → Bool
  | [] => pat.isEmpty
  | c :: cs => startsWithL pat (c :: cs) || containsL pat cs

/-- Whether `pat` occurs as a substring of `hay` (kernel-evaluable). -/
def containsSub (hay pat : String) : Bool := containsL pat.data hay.data

/-- The field categories of the specification's FieldClassifier. -/
inductive FieldCat where
  | Timestamp | Map | Repeated | Message | Scalar
deriving DecidableEq, Repr

/-- The branch order of part_000's genField, read off its if/else chain:
timestamp, then map, then repeated, then message, then scalar. -/
def classifyGenField (f : FieldDescriptorProto) : FieldCat :=
  if isTimestamp f.typeName then .Timestamp
  else if isMap f.typeName then .Map
  else if isRepeated f.label then .Repeated
  else if isMessage f.type then .Message
  else .Scalar

/-- The branch order of main.go's initiate, read off its if/else chain:
map, then repeated, then timestamp, then message, then scalar. -/
def classifyInitiate (f : FieldDescriptorProto) : FieldCat :=
  if isMap f.typeName then .Map
  else if isRepeated f.label then .Repeated
  else if isTimestamp f.typeName then .Timestamp
  else if isMessage f.type then .Message
  else .Scalar

/-- Modelled from the spec: the scalar emission rule of 4.4 — fields in
declaration order, each line `accessPath.field || zero(tag)`, a separator
after every field except the last.  Stated for comparison with genField. -/
def scalarRenderSpec : List FieldDescriptorProto → List String → String
  | [], _ => ""
  | f :: rest, id =>
    let sep := if rest.isEmpty then "" else ","
    (f.name ++ (": " ++ (String.intercalate "." (id ++ [f.name]) ++
      (" || " ++ (zv f.type ++ (sep ++ "\n")))))) ++ scalarRenderSpec rest id

/-- A field is emitted by the scalar branch of part_000's genField exactly
when none of the four earlier branch guards fires. -/
def isScalarField (f : FieldDescriptorProto) : Bool :=
  !isTimestamp f.typeName && !isMap f.typeName && !isRepeated f.label &&
    !isMessage f.type

/-- A repeated field whose type-reference is the reserved Timestamp name. -/
def tsRepField : FieldDescriptorProto :=
  ⟨"ts", .message, ".google.protobuf.Timestamp", .repeated⟩

/-- A message with no fields and no nested types. -/
def emptyMsg : DescriptorProto := .mk "M" [] []

/-- Scenario B's field: `tags: repeated string`. -/
def tagsField : FieldDescriptorProto := ⟨"tags", .string, "", .repeated⟩

/-- A message type for repeated-message emission. -/
def followerMsg : DescriptorProto :=
  .mk "Follower" [⟨"name", .string, "", .optional⟩] []

/-- A repeated message field referencing Follower. -/
def followersField : FieldDescriptorProto :=
  ⟨"followers", .message, ".trpc.Follower", .repeated⟩

/-- The message index for the repeated-message scenario. -/
def msgsC2 : List (String × DescriptorProto) := [(".trpc.Follower", followerMsg)]

/-- Scenario C's value type: `Info{name: string}`. -/
def infoMsg : DescriptorProto := .mk "Info" [⟨"name", .string, "", .optional⟩] []

/-- Scenario C's synthetic map-entry message for `map<string, Info>`. -/
def metaEntryMsg : DescriptorProto :=
  .mk "MetaEntry"
    [⟨"key", .string, "", .optional⟩, ⟨"value", .message, ".trpc.Info", .optional⟩] []

/-- Scenario C's map field `meta: map<string, Info>` as the schema encodes
it: a repeated field referencing the synthetic entry type. -/
def metaField : FieldDescriptorProto :=
  ⟨"meta", .message, ".trpc.Resp.MetaEntry", .repeated⟩

/-- The message index for the map scenario. -/
def msgsC3 : List (String × DescriptorProto) :=
  [(".trpc.Resp.MetaEntry", metaEntryMsg), (".trpc.Info", infoMsg)]

/-- Scenario A's fields: `Point{x: double, y: double}`. -/
def pointFields : List FieldDescriptorProto :=
  [⟨"x", .double, "", .optional⟩, ⟨"y", .double, "", .optional⟩]

/-- Scenario A's message. -/
def pointMsg : DescriptorProto := .mk "Point" pointFields []

/-- A message and service whose owning service is named "Users": used to
show the part_001/part_002 path embeds "Haberdasher" instead. -/
def userMsg : DescriptorProto := .mk "User" [⟨"name", .string, "", .optional⟩] []

/-- A request with service "Users", method "GetUser", both types resolving
to User. -/
def reqUsers : CodeGeneratorRequest :=
  ⟨["service.proto"],
   [⟨"trpc", [userMsg], [⟨"Users", [⟨"GetUser", ".trpc.User", ".trpc.User"⟩]⟩]⟩]⟩

/-- The part_001 artifact content for reqUsers ("" if the run panics). -/
def contentUsers_p1 : String := (content_p1 3 reqUsers).getD ""

/-- The part_002 artifact content for reqUsers ("" if the run panics). -/
def contentUsers_p2 : String := (content_p2 3 reqUsers).getD ""

/-- A request whose one method references a type registered nowhere. -/
def reqBroken : CodeGeneratorRequest :=
  ⟨["x.proto"],
   [⟨"trpc", [], [⟨"S", [⟨"Broken", ".trpc.Missing", ".trpc.Missing"⟩]⟩]⟩]⟩

/-- The main.go artifact for reqBroken (default artifact if the run panics). -/
def artBroken : Artifact := (generate_main 3 reqBroken).getD ⟨"", ""⟩

/-- An ordinary singular message field whose user-chosen type name happens
to end in the reserved suffix. -/
def customEntryField : FieldDescriptorProto :=
  ⟨"extra", .message, ".trpc.CustomEntry", .optional⟩

/-- A request with one message and one service, for the determinism run. -/
def reqPoint : CodeGeneratorRequest :=
  ⟨["point.proto"],
   [⟨"trpc", [pointMsg], [⟨"Points", [⟨"GetPoint", ".trpc.Point", ".trpc.Point"⟩]⟩]⟩]⟩

/-- The main.go artifact for reqPoint. -/
def artPoint : Artifact := (generate_main 3 reqPoint).getD ⟨"", ""⟩

/-- First synthetic entry type: key string, value int32. -/
def aEntryMsg : DescriptorProto :=
  .mk "AEntry"
    [⟨"key", .string, "", .optional⟩, ⟨"value", .int32, "", .optional⟩] []

/-- Second synthetic entry type: key string, value bool. -/
def bEntryMsg : DescriptorProto :=
  .mk "BEntry"
    [⟨"key", .string, "", .optional⟩, ⟨"value", .bool, "", .optional⟩] []

/-- A map field referencing AEntry. -/
def aFieldC10 : FieldDescriptorProto := ⟨"a", .message, ".trpc.M.AEntry", .repeated⟩

/-- A map field referencing BEntry. -/
def bFieldC10 : FieldDescriptorProto := ⟨"b", .message, ".trpc.M.BEntry", .repeated⟩

/-- A message with two map fields and both entry types nested (AEntry first). -/
def twoMapMsg : DescriptorProto :=
  .mk "M" [aFieldC10, bFieldC10] [aEntryMsg, bEntryMsg]

/-- The same message with only BEntry nested, for contrast. -/
def oneMapMsgB : DescriptorProto := .mk "M" [bFieldC10] [bEntryMsg]

/-- The reserved Timestamp name does not end in the reserved map suffix, so
the timestamp and map guards never both fire. -/
theorem isMap_of_isTimestamp (t : String) (h : isTimestamp t = true) :
    isMap t = false := by
  have ht : t = ".google.protobuf.Timestamp" := by
    simpa [isTimestamp] using h
  subst ht
  decide

/-- C8: the map/non-map decision of both classifiers is fully determined by
the "Entry" suffix test on the type-reference — no structural check — and an
ordinary singular message field whose type name ends in "Entry" classifies
as a map. -/
theorem c8_map_decision_is_suffix_only :
    (∀ f : FieldDescriptorProto,
      (classifyGenField f = .Map ↔ isMap f.typeName = true) ∧
      (classifyInitiate f = .Map ↔ isMap f.typeName = true)) ∧
    isMap customEntryField.typeName = true ∧
    isRepeated customEntryField.label = false ∧
    classifyGenField customEntryField = .Map ∧
    classifyInitiate customEntryField = .Map := by
  refine ⟨fun f => ?_, by decide, by decide, by decide, by decide⟩
  cases hts : isTimestamp f.typeName with
  | true =>
    have hm := isMap_of_isTimestamp f.typeName hts
    cases hr : isRepeated f.label <;>
      simp [classifyGenField, classifyInitiate, hts, hm, hr]
  | false =>
    cases hm : isMap f.typeName <;>
      cases hr : isRepeated f.label <;>
        cases hmsg : isMessage f.type <;>
          simp [classifyGenField, classifyInitiate, hts, hm, hr, hmsg]

/-- C1 (amended): genField's classification follows the precedence
timestamp, map, repeated, message, scalar; initiate checks map, then
repeated, then timestamp, so a repeated Timestamp-typed field classifies
Repeated there (and initiate emits the repeated assignment for it), while
a map-entry-typed field classifies Map — never Repeated — under both. -/
theorem c1_classification_precedence :
    (∀ f : FieldDescriptorProto, isTimestamp f.typeName = true →
      classifyGenField f = .Timestamp) ∧
    (∀ f : FieldDescriptorProto, isMap f.typeName = true →
      classifyGenField f = .Map ∧ classifyInitiate f = .Map) ∧
    (∀ f : FieldDescriptorProto, isTimestamp f.typeName = true →
      isRepeated f.label = true → classifyInitiate f = .Repeated) ∧
    (∀ (fuel : Nat) (m : DescriptorProto) (f : FieldDescriptorProto),
      classifyInitiate f = .Repeated →
      initiate fuel m f = some ("this." ++ f.name ++ " = o." ++ f.name ++ " || []")) := by
  refine ⟨?_, ?_, ?_, ?_⟩
  · intro f h
    simp [classifyGenField, h]
  · intro f h
    cases hts : isTimestamp f.typeName with
    | true => rw [isMap_of_isTimestamp f.typeName hts] at h; cases h
    | false => simp [classifyGenField, classifyInitiate, h, hts]
  · intro f ht hr
    have hm := isMap_of_isTimestamp f.typeName ht
    simp [classifyInitiate, hm, hr]
  · intro fuel m f h
    cases hm : isMap f.typeName <;> cases hr : isRepeated f.label <;>
      cases hts : isTimestamp f.typeName <;> cases hmsg : isMessage f.type <;>
        simp_all [classifyInitiate, initiate]

/-- C1 witness: the clauses of the precedence theorem at concrete fields. -/
theorem c1_witness :
    classifyGenField tsRepField = .Timestamp ∧
    classifyInitiate tsRepField = .Repeated ∧
    initiate 1 emptyMsg tsRepField = some "this.ts = o.ts || []" := by
  refine ⟨c1_classification_precedence.1 tsRepField (by decide), ?_, ?_⟩
  · have hm : isMap tsRepField.typeName = false := by decide
    have hr : isRepeated tsRepField.label = true := by decide
    exact c1_classification_precedence.2.2.1 tsRepField (by decide) hr
  · exact (c1_classification_precedence.2.2.2 1 emptyMsg tsRepField (by decide)).trans
      (by decide)

/-- C1 counterexample: a repeated field whose type-reference is the reserved
Timestamp name is classified Repeated by main.go's initiate, not Timestamp,
and initiate emits the repeated fallback `|| []`, not the timestamp fallback
`|| ""`. -/
theorem c1_counterexample :
    isTimestamp tsRepField.typeName = true ∧
    isRepeated tsRepField.label = true ∧
    classifyInitiate tsRepField = .Repeated ∧
    classifyInitiate tsRepField ≠ .Timestamp ∧
    initiate 1 emptyMsg tsRepField = some "this.ts = o.ts || []" ∧
    initiate 1 emptyMsg tsRepField ≠ some "this.ts = o.ts || \"\"" := by
  decide

/-- C4: part_000's genField emits fields in declaration order; on an
all-scalar message the whole output is `accessPath.field || zero` lines
with a separator after every field except the last (scalarRenderSpec states
the spec's wording of that rule), and a scalar field at the head of any
field list is emitted as exactly that line, comma included unless it is
last; zv maps every numeric tag to "0", bool to "false", string to the
empty string, and anything else to the empty-object literal; Scenario A
(Point) and the single-field boundary case come out exactly as the spec
writes them. -/
theorem c4_scalar_emission :
    (∀ (msgs : List (String × DescriptorProto)) (fields : List FieldDescriptorProto)
      (fuel : Nat) (id : List String),
      (∀ f ∈ fields, isScalarField f = true) → fields.length ≤ fuel →
      genField_p0 msgs fuel fields id = some (scalarRenderSpec fields id)) ∧
    (∀ (msgs : List (String × DescriptorProto)) (fuel : Nat)
      (f : FieldDescriptorProto) (rest : List FieldDescriptorProto)
      (id : List String) (r : String),
      isScalarField f = true → genField_p0 msgs fuel rest id = some r →
      genField_p0 msgs (fuel + 1) (f :: rest) id =
        some ((f.name ++ (": " ++ (String.intercalate "." (id ++ [f.name]) ++
          (" || " ++ (zv f.type ++ ((if rest.isEmpty then "" else ",") ++ "\n")))))) ++ r)) ∧
    (∀ t, isNumericType t = true → zv t = "0") ∧
    zv .bool = "false" ∧
    zv .string = "\"\"" ∧
    (∀ t, isNumericType t = false → t ≠ .bool → t ≠ .string → zv t = "\x7b\x7d") ∧
    genField_p0 [] 2 pointFields ["data"] = some "x: data.x || 0,\ny: data.y || 0\n" ∧
    genField_p0 [] 1 [⟨"x", .double, "", .optional⟩] ["data"] = some "x: data.x || 0\n" := by
  refine ⟨?_, ?_, ?_, by decide, by decide, ?_, by decide, by decide⟩
  · intro msgs fields
    induction fields with
    | nil => intro fuel id _ _; simp [genField_p0, scalarRenderSpec]
    | cons f rest ih =>
      intro fuel id hall hlen
      have hlen1 : rest.length + 1 ≤ fuel := by simpa using hlen
      obtain ⟨fu, rfl⟩ : ∃ fu, fuel = fu + 1 := ⟨fuel - 1, by omega⟩
      have hf := hall f (by simp)
      have h1 : isTimestamp f.typeName = false := by
        revert hf; unfold isScalarField; cases isTimestamp f.typeName <;> simp
      have h2 : isMap f.typeName = false := by
        revert hf; unfold isScalarField; cases isMap f.typeName <;> simp
      have h3 : isRepeated f.label = false := by
        revert hf; unfold isScalarField; cases isRepeated f.label <;> simp
      have h4 : isMessage f.type = false := by
        revert hf; unfold isScalarField; cases isMessage f.type <;> simp
      have hlen' : rest.length ≤ fu := by omega
      have hrest := ih fu id (fun g hg => hall g (by simp [hg])) hlen'
      simp only [genField_p0, h1, h2, h3, h4, Bool.false_eq_true, if_false, hrest,
        scalarRenderSpec]
  · intro msgs fuel f rest id r hf hrest
    have h1 : isTimestamp f.typeName = false := by
      revert hf; unfold isScalarField; cases isTimestamp f.typeName <;> simp
    have h2 : isMap f.typeName = false := by
      revert hf; unfold isScalarField; cases isMap f.typeName <;> simp
    have h3 : isRepeated f.label = false := by
      revert hf; unfold isScalarField; cases isRepeated f.label <;> simp
    have h4 : isMessage f.type = false := by
      revert hf; unfold isScalarField; cases isMessage f.type <;> simp
    simp only [genField_p0, h1, h2, h3, h4, Bool.false_eq_true, if_false, hrest]
  · intro t h
    simp [zv, h]
  · intro t h1 h2 h3
    cases t <;> simp_all [zv, isNumericType]

/-- C4 witness: the general scalar-emission clause applied to Point. -/
theorem c4_witness :
    genField_p0 [] 2 pointFields ["data"] = some (scalarRenderSpec pointFields ["data"]) ∧
    scalarRenderSpec pointFields ["data"] = "x: data.x || 0,\ny: data.y || 0\n" := by
  exact ⟨c4_scalar_emission.1 [] pointFields 2 ["data"] (by decide) (by decide),
    by decide⟩

/-- C2 (amended): part_000's genField guards a repeated (non-map) source
with a truthiness check and falls back to the empty sequence, mapping each
element either to the scalar zero default (element type without sub-fields)
or to a recursively synthesized object rooted at the loop variable `v`;
part_001's genField emits the same mapping with no guard and no fallback,
and main.go's initiate emits only `o.field || []`, with no element mapping
at all. -/
theorem c2_repeated_emission :
    (∀ (msgs : List (String × DescriptorProto)) (fuel : Nat)
      (f : FieldDescriptorProto) (id : List String),
      isTimestamp f.typeName = false → isMap f.typeName = false →
      isRepeated f.label = true →
      (GetFieldOpt (lookupMsg msgs f.typeName)).isEmpty = true →
      genField_p0 msgs (fuel + 1) [f] id =
        some (f.name ++ (": " ++ (String.intercalate "." (id ++ [f.name]) ++ (" ? " ++
          (String.intercalate "." (id ++ [f.name]) ++ (".map(v => \x7b\n" ++
          ("return v || " ++ (zv f.type ++ ("\n" ++ ("\x7d) : []" ++ "\n"))))))))))) ∧
    (∀ (msgs : List (String × DescriptorProto)) (fuel : Nat)
      (f : FieldDescriptorProto) (id : List String),
      isTimestamp f.typeName = false → isMap f.typeName = false →
      isRepeated f.label = true →
      (GetFieldOpt (lookupMsg msgs f.typeName)).isEmpty = false →
      genField_p0 msgs (fuel + 1) [f] id =
        (genField_p0 msgs fuel (GetFieldOpt (lookupMsg msgs f.typeName)) ["v"]).map
          (fun inner =>
            f.name ++ (": " ++ (String.intercalate "." (id ++ [f.name]) ++ (" ? " ++
              (String.intercalate "." (id ++ [f.name]) ++ (".map(v => \x7b\n" ++
              ("return \x7b\n" ++ (inner ++ ("\x7d\n" ++ ("\x7d) : []" ++ "\n"))))))))))) ∧
    (∀ (msgs : List (String × DescriptorProto)) (fuel : Nat)
      (f : FieldDescriptorProto) (id : List String),
      isRepeated f.label = true →
      (GetFieldOpt (lookupMsg msgs f.typeName)).isEmpty = true →
      genField_p1 msgs (fuel + 1) [f] id =
        some (f.name ++ (": " ++ (String.intercalate "." (id ++ [f.name]) ++
          (".map(v => \x7b\n" ++ ("return v || " ++ (zv f.type ++ ("\n" ++
          ("\x7d)" ++ "\n"))))))))) ∧
    (∀ (fuel : Nat) (m : DescriptorProto) (f : FieldDescriptorProto),
      isMap f.typeName = false → isRepeated f.label = true →
      initiate fuel m f = some ("this." ++ f.name ++ " = o." ++ f.name ++ " || []")) := by
  refine ⟨?_, ?_, ?_, ?_⟩
  · intro msgs fuel f id h1 h2 h3 h4
    simp only [genField_p0, h1, h2, h3, h4, Bool.false_eq_true, if_false, if_true,
      List.isEmpty_nil]
    simp only [String.append_empty, String.empty_append]
  · intro msgs fuel f id h1 h2 h3 h4
    simp only [genField_p0, h1, h2, h3, h4, Bool.false_eq_true, if_false, if_true,
      List.isEmpty_nil]
    cases genField_p0 msgs fuel (GetFieldOpt (lookupMsg msgs f.typeName)) ["v"] with
    | none => simp
    | some inner => simp [String.append_empty, String.empty_append]
  · intro msgs fuel f id h3 h4
    simp only [genField_p1, h3, h4, Bool.false_eq_true, if_false, if_true,
      List.isEmpty_nil]
    simp only [String.append_empty, String.empty_append]
  · intro fuel m f h1 h2
    simp [initiate, h1, h2]

/-- C2 witness: the guarded clauses at Scenario B (`tags: repeated string`)
and at a repeated message field (recursion rooted at `v`). -/
theorem c2_witness :
    genField_p0 [] 2 [tagsField] ["data"] =
      some "tags: data.tags ? data.tags.map(v => \x7b\nreturn v || \"\"\n\x7d) : []\n" ∧
    genField_p0 msgsC2 3 [followersField] ["data"] =
      some "followers: data.followers ? data.followers.map(v => \x7b\nreturn \x7b\nname: v.name || \"\"\n\x7d\n\x7d) : []\n" := by
  constructor
  · exact (c2_repeated_emission.1 [] 1 tagsField ["data"] (by decide) (by decide)
      (by decide) (by decide)).trans (by decide)
  · exact (c2_repeated_emission.2.1 msgsC2 2 followersField ["data"] (by decide)
      (by decide) (by decide) (by decide)).trans (by decide)

/-- C2 counterexample: part_001's genField emits, for the repeated field
`tags`, a mapping of the source with no truthiness guard and no
empty-sequence fallback (the emitted text contains no conditional at all),
so the claim's "guards the source ... yields an empty-sequence fallback"
fails on that emitter. -/
theorem c2_counterexample :
    genField_p1 [] 2 [tagsField] ["data"] =
      some "tags: data.tags.map(v => \x7b\nreturn v || \"\"\n\x7d)\n" ∧
    containsSub "tags: data.tags.map(v => \x7b\nreturn v || \"\"\n\x7d)\n" "?" = false ∧
    containsSub "tags: data.tags.map(v => \x7b\nreturn v || \"\"\n\x7d)\n" "[]" = false := by
  decide

/-- Scenario C's owning message: `Resp` with the map field and the synthetic
entry type nested. -/
def respMsg : DescriptorProto := .mk "Resp" [metaField] [metaEntryMsg]

/-- The text part_000's genField emits for `meta: map<string, Info>` rooted
at `data`. -/
def metaEmitted_p0 : String :=
  "meta: Object.entries(data.meta).reduce((a, [k, v]) => \x7b\na[k] = \x7b\nname: v.name || \"\"\n\x7d\nreturn a\n\x7d, \x7b\x7d)\n"

/-- The text main.go's initiate emits for the same map field. -/
def initMeta_main : String :=
  "this.meta = Object.entries(o.meta).reduce((a, [k, v]) => \x7ba[k] = new Info(v || \x7b\x7d); return a\x7d, \x7b\x7d)"

/-- A map-entry type with a primitive (string) value. -/
def labelsEntryMsg : DescriptorProto :=
  .mk "LabelsEntry"
    [⟨"key", .string, "", .optional⟩, ⟨"value", .string, "", .optional⟩] []

/-- A `labels: map<string, string>` field. -/
def labelsField : FieldDescriptorProto :=
  ⟨"labels", .message, ".trpc.Resp.LabelsEntry", .repeated⟩

/-- The index for the primitive-valued map scenario. -/
def msgsLabels : List (String × DescriptorProto) :=
  [(".trpc.Resp.LabelsEntry", labelsEntryMsg)]

/-- C3 (amended): for a map-classified field, part_000's genField iterates
Object.entries of the value at the access path, recursively reconstructs the
entry's value type per entry into an accumulator keyed by the original key
`k`, with the empty container as the reduce seed; the source is dereferenced
without any absence guard (no fallback happens when the source is absent).
main.go's initiate emits the same unguarded entry reduction, constructing the
value type per entry.  The synthetic entry type's name never appears in the
emitted text. -/
theorem c3_map_emission :
    (∀ (msgs : List (String × DescriptorProto)) (fuel : Nat)
      (f v : FieldDescriptorProto) (id : List String),
      isTimestamp f.typeName = false → isMap f.typeName = true →
      (GetFieldOpt (lookupMsg msgs f.typeName))[1]? = some v →
      genField_p0 msgs (fuel + 1) [f] id =
        (genField_p0 msgs fuel (GetFieldOpt (lookupMsg msgs v.typeName)) ["v"]).map
          (fun inner =>
            f.name ++ (": Object.entries(" ++
              (String.intercalate "." (id ++ [f.name]) ++
              (").reduce((a, [k, v]) => \x7b\n" ++ ("a[k] = \x7b\n" ++ (inner ++
              ("\x7d\n" ++ ("return a\n" ++ ("\x7d, \x7b\x7d)" ++ "\n")))))))))) ∧
    initiate 2 respMsg metaField = some initMeta_main ∧
    containsSub metaEmitted_p0 "MetaEntry" = false ∧
    containsSub initMeta_main "MetaEntry" = false := by
  refine ⟨?_, by decide, by decide, by decide⟩
  intro msgs fuel f v id h1 h2 hv
  simp only [genField_p0, h1, h2, hv, Bool.false_eq_true, if_false, if_true,
    List.isEmpty_nil]
  cases genField_p0 msgs fuel (GetFieldOpt (lookupMsg msgs v.typeName)) ["v"] with
  | none => simp
  | some inner => simp [String.append_empty, String.empty_append]

/-- C3 witness: the map clause at `labels: map<string, string>` (a primitive
value type: the per-entry object is empty). -/
theorem c3_witness :
    genField_p0 msgsLabels 2 [labelsField] ["data"] =
      some "labels: Object.entries(data.labels).reduce((a, [k, v]) => \x7b\na[k] = \x7b\n\x7d\nreturn a\n\x7d, \x7b\x7d)\n" := by
  exact (c3_map_emission.1 msgsLabels 1 labelsField ⟨"value", .string, "", .optional⟩
    ["data"] (by decide) (by decide) (by decide)).trans (by decide)

/-- C3 counterexample: the emitted map-reconstruction text dereferences the
source (`data.meta` / `o.meta`) unguarded — it contains no truthiness test
and no `||` fallback on the source — so the claim's "falls back to an empty
container when the source is absent" fails: the `\x7b\x7d` in the emitted
text is the reduce seed, used only when the source is present. -/
theorem c3_counterexample :
    genField_p0 msgsC3 3 [metaField] ["data"] = some metaEmitted_p0 ∧
    containsSub metaEmitted_p0 "Object.entries(data.meta).reduce" = true ∧
    containsSub metaEmitted_p0 "data.meta ?" = false ∧
    containsSub metaEmitted_p0 "data.meta ||" = false ∧
    initiate 2 respMsg metaField = some initMeta_main ∧
    containsSub initMeta_main "Object.entries(o.meta).reduce" = true ∧
    containsSub initMeta_main "o.meta ?" = false ∧
    containsSub initMeta_main "o.meta ||" = false := by
  decide

/-- A message with a map-classified field but no nested types. -/
def noNestedMsg : DescriptorProto := .mk "N" [bFieldC10] []

/-- C10: in getTypeScriptType's map branch, the entry type is read as the
owning message's first nested type: resolution is none (a Go index panic)
when the message has no nested type; the result depends on the owning
message only through its first nested type, for every field; and with two
map fields the second field's key/value types are read from the first
nested entry (AEntry: value number), not from the entry the field
references (BEntry: value boolean). -/
theorem c10_map_resolution_first_nested :
    (∀ (fuel : Nat) (msg : DescriptorProto) (f : FieldDescriptorProto),
      isNumericType f.type = false → f.type ≠ .bool → f.type ≠ .string →
      isTimestamp f.typeName = false → isMap f.typeName = true →
      msg.nestedType = [] → getTypeScriptType fuel msg f = none) ∧
    (∀ (fuel : Nat) (n₁ n₂ : String) (fl₁ fl₂ : List FieldDescriptorProto)
      (r₁ r₂ : List DescriptorProto) (e : DescriptorProto)
      (f : FieldDescriptorProto),
      getTypeScriptType fuel (.mk n₁ fl₁ (e :: r₁)) f =
        getTypeScriptType fuel (.mk n₂ fl₂ (e :: r₂)) f) ∧
    getTypeScriptType 3 twoMapMsg aFieldC10 = some "\x7b [name: string]: number \x7d" ∧
    getTypeScriptType 3 twoMapMsg bFieldC10 = some "\x7b [name: string]: number \x7d" ∧
    getTypeScriptType 3 oneMapMsgB bFieldC10 = some "\x7b [name: string]: boolean \x7d" := by
  refine ⟨?_, ?_, by decide, by decide, by decide⟩
  · intro fuel msg f h1 h2 h3 h4 h5 h6
    obtain ⟨n, fl, nested⟩ := msg
    simp only [DescriptorProto.nestedType] at h6
    subst h6
    cases t : f.type <;>
      simp_all [getTypeScriptType, isNumericType, DescriptorProto.nestedType]
  · intro fuel n₁ n₂ fl₁ fl₂ r₁ r₂ e f
    conv_lhs => rw [getTypeScriptType]
    conv_rhs => rw [getTypeScriptType]
    rfl

/-- C10 witness: the none clause at a concrete map field on a message with
no nested types, and the independence clause at the two concrete messages. -/
theorem c10_witness :
    getTypeScriptType 3 noNestedMsg bFieldC10 = none ∧
    getTypeScriptType 2 (.mk "P" [] [aEntryMsg]) bFieldC10 =
      getTypeScriptType 2 (.mk "Q" [bFieldC10] [aEntryMsg, bEntryMsg]) bFieldC10 := by
  refine ⟨?_, ?_⟩
  · exact c10_map_resolution_first_nested.1 3 noNestedMsg bFieldC10 (by decide)
      (by decide) (by decide) (by decide) (by decide) rfl
  · exact c10_map_resolution_first_nested.2.1 2 "P" "Q" [] [bFieldC10] [] [bEntryMsg]
      aEntryMsg bFieldC10

/-- C7 (amended): in main.go an unresolved method type-reference does not
abort the run: the nil-tolerant GetName turns the missing lookup into an
empty type-name string, the binding is still emitted, and the run still
produces its artifact. -/
theorem c7_unresolved_method_types_tolerated :
    (∀ (msgs : List (String × DescriptorProto)) (s : String)
      (mtd : MethodDescriptorProto),
      lookupMsg msgs mtd.inputType = none → lookupMsg msgs mtd.outputType = none →
      mkMethod_main msgs s mtd = ⟨s, mtd.name, "", ""⟩) ∧
    (generate_main 3 reqBroken).isSome = true ∧
    containsSub artBroken.content
      "export const Broken = async (input: ): Promise<> =>" = true ∧
    containsSub artBroken.content "return new (data)" = true := by
  refine ⟨?_, by decide, by decide, by decide⟩
  intro msgs s mtd h1 h2
  simp [mkMethod_main, h1, h2, GetNameOpt]

/-- C7 witness: the tolerance clause at the concrete unresolvable method. -/
theorem c7_witness :
    mkMethod_main [] "S" ⟨"Broken", ".trpc.Missing", ".trpc.Missing"⟩ =
      ⟨"S", "Broken", "", ""⟩ := by
  exact c7_unresolved_method_types_tolerated.1 [] "S"
    ⟨"Broken", ".trpc.Missing", ".trpc.Missing"⟩ rfl rfl

/-- C7 counterexample: on a request whose only method references a type that
is registered nowhere, main.go's run completes and emits an artifact whose
content contains the binding with empty type names — generation does not
fail fatally and an artifact is emitted. -/
theorem c7_counterexample :
    (generate_main 3 reqBroken).isSome = true ∧
    containsSub artBroken.content "Promise<>" = true ∧
    containsSub artBroken.content "export const Broken" = true := by
  decide

/-- C9: generation is a pure function of the request — two runs on the same
request yield the same artifact name and the same artifact text.  The
embedding threads main.go's package-level state (classes, messages, Methods)
explicitly from its initial value, as a fresh process run does. -/
theorem c9_determinism :
    ∀ (fuel : Nat) (req : CodeGeneratorRequest) (a b : Artifact),
      generate_main fuel req = some a → generate_main fuel req = some b →
      a.name = b.name ∧ a.content = b.content := by
  intro fuel req a b ha hb
  rw [ha] at hb
  cases hb
  exact ⟨rfl, rfl⟩

/-- C9 witness: the determinism theorem applied to the concrete Point run. -/
theorem c9_witness : artPoint.name = artPoint.name ∧ artPoint.content = artPoint.content := by
  exact c9_determinism 3 reqPoint artPoint artPoint rfl rfl

/-- C5 (amended): main.go's and part_000's rendered bindings contain the
contiguous status check — non-200 throws Error(res.statusText), and the JSON
parse stands only after the check — while part_001's and part_002's rendered
artifacts parse the response unconditionally and never read res.status. -/
theorem c5_status_check :
    (∀ m : MethodGo, ∃ x y, renderMethod_main m = x ++ (bpCheck ++ y)) ∧
    (∀ m : MethodP0, ∃ x y, renderMethod_p0 m = x ++ (bpCheckP0 ++ y)) ∧
    (content_p1 3 reqUsers).isSome = true ∧
    containsSub contentUsers_p1 "res.status" = false ∧
    containsSub contentUsers_p1 "const data = await res.json()" = true ∧
    (content_p2 3 reqUsers).isSome = true ∧
    containsSub contentUsers_p2 "res.status" = false ∧
    containsSub contentUsers_p2 "const data = await res.json()" = true := by
  refine ⟨?_, ?_, by decide, by decide, by decide, by decide, by decide, by decide⟩
  · intro m
    refine ⟨"\nexport const " ++ m.Name ++ " = async (input: " ++ m.InputType ++
      "): Promise<" ++ m.OutputType ++ bpMeta ++ bpFetch ++ m.Service ++ "/" ++
      m.Name ++ bpHdr ++ bpCT ++ bpCred ++ bpPost ++ "\n\t\t" ++ bpBody ++ bpClose,
      "\n\treturn new " ++ m.OutputType ++ "(data)\n\x7d\n", ?_⟩
    simp [renderMethod_main, String.append_assoc]
  · intro m
    refine ⟨"\nconst " ++ m.Name ++ " = async (input: " ++ m.InputType ++
      "): Promise<" ++ m.OutputType ++ bpMeta ++ bpFetch ++ m.Service ++ "/" ++
      m.Name ++ bpHdr ++ bpCT ++ bpCred ++ bpPost ++ "\n\t\t" ++ bpBody ++ bpClose,
      m.OutputType ++ "\n\n\t" ++ m.Field ++ "\n\treturn " ++ m.OutputName ++
      "\n\x7d\n", ?_⟩
    simp [renderMethod_p0, String.append_assoc]

/-- C5 witness: the main.go clause at a concrete method. -/
theorem c5_witness :
    ∃ x y, renderMethod_main ⟨"Users", "GetUser", "User", "User"⟩ =
      x ++ (bpCheck ++ y) := by
  exact c5_status_check.1 ⟨"Users", "GetUser", "User", "User"⟩

/-- C5 counterexample: the artifact part_001 generates for reqUsers parses
the response as JSON but never reads res.status, so its binding does not
fail on a non-200 status — the claim fails for that generated binding. -/
theorem c5_counterexample :
    (content_p1 3 reqUsers).isSome = true ∧
    containsSub contentUsers_p1 "const data = await res.json()" = true ∧
    containsSub contentUsers_p1 "res.status" = false := by
  decide

/-- C6 (amended): main.go's bindings issue one POST with header
Content-Type: application/json and JSON.stringify(input) as body to
/twirp/trpc.<Service>/<MethodName> derived from the owning service and
method; part_002 (and part_001, which also omits the leading slash) instead
embed the template-level service name, which their mains hardcode to
"Haberdasher", regardless of the owning service. -/
theorem c6_endpoint_path :
    (∀ m : MethodGo, ∃ x y, renderMethod_main m =
      x ++ (bpFetch ++ (m.Service ++ ("/" ++ (m.Name ++ y))))) ∧
    (∀ m : MethodGo, ∃ x y, renderMethod_main m = x ++ (bpPost ++ y)) ∧
    (∀ m : MethodGo, ∃ x y, renderMethod_main m = x ++ (bpCT ++ y)) ∧
    (∀ m : MethodGo, ∃ x y, renderMethod_main m = x ++ (bpBody ++ y)) ∧
    (∀ (s : String) (m : MethodJS), ∃ x y, renderMethod_p2 s m =
      x ++ (bpFetch ++ (s ++ ("/" ++ (m.Name ++ y))))) ∧
    (∀ (s : String) (m : MethodJS), ∃ x y, renderMethod_p1 s m =
      x ++ (bpFetchNoSlash ++ (s ++ ("/" ++ (m.Name ++ y))))) ∧
    (content_p2 3 reqUsers).isSome = true ∧
    containsSub contentUsers_p2 "/twirp/trpc.Haberdasher/GetUser" = true ∧
    containsSub contentUsers_p2 "trpc.Users" = false := by
  refine ⟨?_, ?_, ?_, ?_, ?_, ?_, by decide, by decide, by decide⟩
  · intro m
    refine ⟨"\nexport const " ++ m.Name ++ " = async (input: " ++ m.InputType ++
      "): Promise<" ++ m.OutputType ++ bpMeta,
      bpHdr ++ bpCT ++ bpCred ++ bpPost ++ "\n\t\t" ++ bpBody ++ bpClose ++
      bpCheck ++ "\n\treturn new " ++ m.OutputType ++ "(data)\n\x7d\n", ?_⟩
    simp [renderMethod_main, String.append_assoc]
  · intro m
    refine ⟨"\nexport const " ++ m.Name ++ " = async (input: " ++ m.InputType ++
      "): Promise<" ++ m.OutputType ++ bpMeta ++ bpFetch ++ m.Service ++ "/" ++
      m.Name ++ bpHdr ++ bpCT ++ bpCred,
      "\n\t\t" ++ bpBody ++ bpClose ++ bpCheck ++ "\n\treturn new " ++
      m.OutputType ++ "(data)\n\x7d\n", ?_⟩
    simp [renderMethod_main, String.append_assoc]
  · intro m
    refine ⟨"\nexport const " ++ m.Name ++ " = async (input: " ++ m.InputType ++
      "): Promise<" ++ m.OutputType ++ bpMeta ++ bpFetch ++ m.Service ++ "/" ++
      m.Name ++ bpHdr,
      bpCred ++ bpPost ++ "\n\t\t" ++ bpBody ++ bpClose ++ bpCheck ++
      "\n\treturn new " ++ m.OutputType ++ "(data)\n\x7d\n", ?_⟩
    simp [renderMethod_main, String.append_assoc]
  · intro m
    refine ⟨"\nexport const " ++ m.Name ++ " = async (input: " ++ m.InputType ++
      "): Promise<" ++ m.OutputType ++ bpMeta ++ bpFetch ++ m.Service ++ "/" ++
      m.Name ++ bpHdr ++ bpCT ++ bpCred ++ bpPost ++ "\n\t\t",
      bpClose ++ bpCheck ++ "\n\treturn new " ++ m.OutputType ++ "(data)\n\x7d\n", ?_⟩
    simp [renderMethod_main, String.append_assoc]
  · intro s m
    refine ⟨"\nconst " ++ m.Name ++
      " = async (input) => \x7b\n\tconst token = document.querySelector('meta[name=\"csrf-token\"]').content\n\tconst res = ",
      bpHdr ++ bpCT ++ bpCred ++ bpPost ++ "\n\t\t" ++ bpBody ++ bpClose ++
      "const data = await res.json()\n\t" ++ m.Field ++ "\n\treturn " ++
      m.OutputName ++ "\n\x7d\n", ?_⟩
    simp [renderMethod_p2, String.append_assoc]
  · intro s m
    refine ⟨"\nconst " ++ m.Name ++ " = async (input) => \x7b\n\tconst res = ",
      "', \x7b\n\t\theaders: \x7b\n\t\t\t" ++ bpCT ++ "\n\t\t\x7d,\n\t\t" ++
      bpPost ++ "\n\t\t" ++ bpBody ++ bpClose ++
      "const data = await res.json()\n\t" ++ m.Field ++ "\n\treturn " ++
      m.OutputName ++ "\n\x7d\n", ?_⟩
    simp [renderMethod_p1, String.append_assoc]

/-- C6 witness: the path clause of the main.go blueprint at a concrete
method of a service named Users. -/
theorem c6_witness :
    ∃ x y, renderMethod_main ⟨"Users", "GetUser", "User", "User"⟩ =
      x ++ (bpFetch ++ ("Users" ++ ("/" ++ ("GetUser" ++ y)))) := by
  exact c6_endpoint_path.1 ⟨"Users", "GetUser", "User", "User"⟩

/-- C6 counterexample: the artifact part_002 generates for a service named
Users embeds the fixed segment Haberdasher in the endpoint path and the
owning service's name appears nowhere, so the path is not derived from the
owning service's name. -/
theorem c6_counterexample :
    (content_p2 3 reqUsers).isSome = true ∧
    containsSub contentUsers_p2 "/twirp/trpc.Haberdasher/GetUser" = true ∧
    containsSub contentUsers_p2 "trpc.Users" = false ∧
    containsSub contentUsers_p2 "Users" = false := by
  decide
